import Mathlib

/-!
# The system-tray controller of `src/background/tray.js`

A shallow embedding of the module: the three policy functions
(`getTrayIconTitle`, `getTrayIconTooltip`, `createContextMenuTemplate`) and the
`Tray` class with its methods, followed by theorems about them.

Modelling conventions.

* The class instance is a record `Tray`; a method is a function from the record
  before the call to the record after it together with the list of effects the
  call performed, in program order (`Effect`): the calls made on the native
  tray object and the events emitted with `this.emit`.
* Listeners are assumed not to call back into the controller while an event is
  being emitted, so an `emit` is recorded and has no other effect.
* The native tray object (`electron.Tray`) is a record of the values last given
  to it through its constructor and setters; its constructor and methods are
  taken to return normally, also for an image that is `undefined`.
* The values of a `TrayState` are typed as the data model types them: booleans,
  a string title, an integer count and one of the four status names.
* The image registry, a plain object used as a map, is a list of its entries;
  the write under the name `__proto__`, which changes the prototype of the
  object instead of an entry, is outside the model.
* What the module imports from its surroundings is a parameter (`Env`):
  `process.platform`, the `AppleInterfaceStyle` user default and `i18n`.
-/

namespace TrayJs

/-! ## Data model -/

/-- The four values of `state.status`. -/
inductive Status where
  | online
  | away
  | busy
  | offline
deriving DecidableEq, Repr

/-- The object `state.badge`. -/
structure Badge where
  title : String
  count : Int
  showAlert : Bool
deriving DecidableEq, Repr

/-- The object `this.state` (constructor, lines 42-52). -/
structure TrayState where
  badge : Badge
  status : Status
  isMainWindowVisible : Bool
  showIcon : Bool
  showUserStatus : Bool
deriving DecidableEq, Repr

/-- The argument of `setState`: an object holding any subset of the top-level
fields of a `TrayState`; `none` is a field the object does not have. -/
structure StatePatch where
  badge : Option Badge
  status : Option Status
  isMainWindowVisible : Option Bool
  showIcon : Option Bool
  showUserStatus : Option Bool
deriving DecidableEq, Repr

/-- The localisation module `../i18n/index.js`, of which the tray uses
`i18n.__(key)` (here `translate`) and `i18n.pluralize(key, count, ...args)`. -/
structure I18n where
  translate : String → String
  pluralize : String → Int → Int → String

/-- What the module reads from its surroundings. -/
structure Env where
  /-- The value of `process.platform`. -/
  platform : String
  /-- The value of `systemPreferences.getUserDefault('AppleInterfaceStyle', 'string')`. -/
  appleInterfaceStyle : String
  i18n : I18n

/-- The events the controller emits through the inherited `emit`. -/
inductive TrayEvent where
  | created
  | destroyed
  | update
  | setMainWindowVisibility (visible : Bool)
  | quit
deriving DecidableEq, Repr

/-- One entry of the context-menu template: its label and the event its `click`
callback emits when the entry is activated. -/
structure MenuItem where
  label : String
  click : TrayEvent
deriving DecidableEq, Repr

/-- The result of `Menu.buildFromTemplate(template)`: the native menu built
from a template. -/
structure Menu where
  template : List MenuItem
deriving DecidableEq, Repr

/-- The function `Menu.buildFromTemplate`. -/
def Menu.buildFromTemplate (template : List MenuItem) : Menu := ⟨template⟩

/-- The result of `nativeImage.createFromDataURL(dataUrl)`: the native image
decoded from a data URL. -/
structure NativeImage where
  dataURL : String
deriving DecidableEq, Repr

/-- The function `nativeImage.createFromDataURL`. -/
def NativeImage.createFromDataURL (dataUrl : String) : NativeImage := ⟨dataUrl⟩

/-- The native tray object (`new TrayIcon(image)`): the values last given to it.
`image` is `none` when the value passed was `undefined`; `title`, `toolTip` and
`contextMenu` are `none` until the first call of the setter; `onClick` and
`onRightClick` tell whether a listener was attached with `on`. -/
structure TrayIcon where
  image : Option NativeImage
  toolTip : Option String
  title : Option String
  contextMenu : Option Menu
  onClick : Bool
  onRightClick : Bool
deriving DecidableEq, Repr

/-- What a method does besides changing the fields of the controller: a call on
the native tray object, or a call of an inherited `EventEmitter` method. -/
inductive Effect where
  /-- The call `new TrayIcon(image)`. -/
  | newTrayIcon (image : Option NativeImage)
  /-- The call `trayIcon.setImage(image)`. -/
  | setImage (image : Option NativeImage)
  /-- The call `trayIcon.setTitle(title)`. -/
  | setTitle (title : String)
  /-- The call `trayIcon.setToolTip(toolTip)`. -/
  | setToolTip (toolTip : String)
  /-- The call `trayIcon.setContextMenu(menu)`. -/
  | setContextMenu (menu : Menu)
  /-- The call `trayIcon.on('click', ...)`. -/
  | onClick
  /-- The call `trayIcon.on('right-click', ...)`. -/
  | onRightClick
  /-- The call `trayIcon.destroy()`. -/
  | destroyTrayIcon
  /-- The call `this.emit(event, ...)`. -/
  | emit (event : TrayEvent)
  /-- The call `this.removeAllListeners()`. -/
  | removeAllListeners
deriving DecidableEq, Repr

/-- The instance of `class Tray extends EventEmitter`: its three fields, and
the listeners registered on it through the inherited `on` (event name and an
identifier of the listener function). -/
structure Tray where
  state : TrayState
  trayIcon : Option TrayIcon
  images : List (String × NativeImage)
  listeners : List (String × Nat)
deriving DecidableEq, Repr

/-! ## The policy functions (lines 5-36) -/

/-- The expression `xs.filter(Boolean)` on an array of strings and `null`s: the
truthy elements, which are the strings other than the empty one. -/
def filterBoolean (xs : List (Option String)) : List String :=
  xs.filterMap fun x =>
    match x with
    | some s => if s = "" then none else some s
    | none => none

/-- The function `getTrayIconTitle` (lines 5-23). -/
def getTrayIconTitle (env : Env) (state : TrayState) : String :=
  let isDarkMode : Bool := env.appleInterfaceStyle == "Dark"
  let statusAnsiColor : String :=
    match state.status with
    | .online => "32"
    | .away => "33"
    | .busy => "31"
    | .offline => if isDarkMode then "37" else "0"
  let badgeTitleAnsiColor : String := if isDarkMode then "37" else "0"
  let hasMentions : Bool := state.badge.showAlert && decide (state.badge.count > 0)
  let statusBulletString : Option String :=
    if state.showUserStatus then some ("\x1b[" ++ statusAnsiColor ++ "m•\x1b[0m") else none
  let badgeTitleString : Option String :=
    if hasMentions then some ("\x1b[" ++ badgeTitleAnsiColor ++ "m" ++ state.badge.title ++ "\x1b[0m")
    else none
  " ".intercalate (filterBoolean [statusBulletString, badgeTitleString])

/-- The function `getTrayIconTooltip` (line 25). -/
def getTrayIconTooltip (env : Env) (state : TrayState) : String :=
  env.i18n.pluralize "Message_count" state.badge.count state.badge.count

/-- The function `createContextMenuTemplate` (lines 27-36); `events` is the
controller itself, so a `click` callback emits on the controller. -/
def createContextMenuTemplate (env : Env) (state : TrayState) : List MenuItem :=
  [ { label := if !state.isMainWindowVisible then env.i18n.translate "Show"
               else env.i18n.translate "Hide",
      click := .setMainWindowVisibility (!state.isMainWindowVisible) },
    { label := env.i18n.translate "Quit",
      click := .quit } ]

/-- Activating a menu entry runs its `click` callback, which emits one event. -/
def MenuItem.activate (item : MenuItem) : List Effect := [.emit item.click]

/-! ## The class `Tray` (lines 38-145) -/

/-- The constructor (lines 39-57). -/
def Tray.new : Tray :=
  { state :=
      { badge := { title := "", count := 0, showAlert := false },
        status := .online,
        isMainWindowVisible := true,
        showIcon := true,
        showUserStatus := true },
    trayIcon := none,
    images := [],
    listeners := [] }

/-- The object spread `{ ...state, ...patch }` of `setState` (lines 60-63). -/
def TrayState.spread (state : TrayState) (patch : StatePatch) : TrayState :=
  { badge := patch.badge.getD state.badge,
    status := patch.status.getD state.status,
    isMainWindowVisible := patch.isMainWindowVisible.getD state.isMainWindowVisible,
    showIcon := patch.showIcon.getD state.showIcon,
    showUserStatus := patch.showUserStatus.getD state.showUserStatus }

/-- The read `images[name]` of the registry object, for a name that a plain
object does not inherit, as are the fourteen names `getIconImage` reads: `none`
is `undefined`. -/
def imagesGet (images : List (String × NativeImage)) (name : String) : Option NativeImage :=
  images.lookup name

/-- The write `images[name] = image` on the registry object, for a name other
than `__proto__`: an entry with that name is overwritten in place, a new name
is added after the others. Under the name `__proto__` the assignment replaces
the prototype of the object and adds no entry; that write is not modelled, and
no theorem on the entries of the registry is stated for it. -/
def imagesSet : List (String × NativeImage) → String → NativeImage → List (String × NativeImage)
  | [], name, image => [(name, image)]
  | (k, v) :: rest, name, image =>
    if k = name then (name, image) :: rest else (k, v) :: imagesSet rest name image

/-- The conversion `String(count)` of an integer: its decimal numeral. -/
def numberToString (count : Int) : String := toString count

/-- The key under which `getIconImage` reads the registry (lines 70-82). -/
def Tray.getIconImageName (env : Env) (t : Tray) : String :=
  if t.state.badge.title = "•" then "dot"
  else if t.state.badge.count > 0 then
    (if t.state.badge.count > 9 then "9plus" else numberToString t.state.badge.count)
  else if t.state.badge.showAlert then "alert"
  else if env.platform = "darwin" then "template" else "normal"

/-- The method `getIconImage` (lines 67-83). -/
def Tray.getIconImage (env : Env) (t : Tray) : Option NativeImage :=
  if t.state.badge.title = "•" then imagesGet t.images "dot"
  else if t.state.badge.count > 0 then
    imagesGet t.images (if t.state.badge.count > 9 then "9plus" else numberToString t.state.badge.count)
  else if t.state.badge.showAlert then imagesGet t.images "alert"
  else imagesGet t.images (if env.platform = "darwin" then "template" else "normal")

/-- The method `setIconImage` (lines 85-87). -/
def Tray.setIconImage (t : Tray) (name : String) (dataUrl : String) : Tray × List Effect :=
  ({ t with images := imagesSet t.images name (NativeImage.createFromDataURL dataUrl) }, [])

/-- The method `createTrayIcon` (lines 89-101). -/
def Tray.createTrayIcon (env : Env) (t : Tray) : Tray × List Effect :=
  match t.trayIcon with
  | some _ => (t, [])
  | none =>
    let image := t.getIconImage env
    let toolTip := getTrayIconTooltip env t.state
    ({ t with
        trayIcon := some
          { image := image, toolTip := some toolTip, title := none, contextMenu := none,
            onClick := true, onRightClick := true } },
     [.newTrayIcon image, .setToolTip toolTip, .onClick, .onRightClick, .emit .created])

/-- The method `destroyTrayIcon` (lines 103-111). -/
def Tray.destroyTrayIcon (t : Tray) : Tray × List Effect :=
  match t.trayIcon with
  | none => (t, [])
  | some _ => ({ t with trayIcon := none }, [.destroyTrayIcon, .emit .destroyed])

/-- The method `destroy` (lines 113-116). -/
def Tray.destroy (t : Tray) : Tray × List Effect :=
  let r := t.destroyTrayIcon
  ({ r.1 with listeners := [] }, r.2 ++ [.removeAllListeners])

/-- The method `update` (lines 118-144). -/
def Tray.update (env : Env) (t : Tray) : Tray × List Effect :=
  let showIcon := t.state.showIcon
  let r :=
    if t.trayIcon.isSome && !showIcon then t.destroyTrayIcon
    else if !t.trayIcon.isSome && showIcon then t.createTrayIcon env
    else (t, [])
  match r.1.trayIcon with
  | none => (r.1, r.2 ++ [.emit .update])
  | some icon =>
    let image := r.1.getIconImage env
    let icon1 := { icon with image := image }
    let titled : TrayIcon × List Effect :=
      if env.platform = "darwin" then
        ({ icon1 with title := some (getTrayIconTitle env r.1.state) },
         [.setTitle (getTrayIconTitle env r.1.state)])
      else (icon1, [])
    let toolTip := getTrayIconTooltip env r.1.state
    let menu := Menu.buildFromTemplate (createContextMenuTemplate env r.1.state)
    ({ r.1 with
        trayIcon := some { titled.1 with toolTip := some toolTip, contextMenu := some menu } },
     r.2 ++ [.setImage image] ++ titled.2 ++ [.setToolTip toolTip, .setContextMenu menu, .emit .update])

/-- The method `setState` (lines 59-65). -/
def Tray.setState (env : Env) (t : Tray) (patch : StatePatch) : Tray × List Effect :=
  Tray.update env { t with state := t.state.spread patch }

/-- A sequence of `setState` calls, one patch after the other. -/
def Tray.setStates (env : Env) (t : Tray) : List StatePatch → Tray
  | [] => t
  | patch :: rest => Tray.setStates env (t.setState env patch).1 rest

/-- A call of one of the three public methods. -/
inductive Call where
  | setState (patch : StatePatch)
  | setIconImage (name : String) (dataUrl : String)
  | destroy
deriving DecidableEq, Repr

/-- The effect of one call of a public method. -/
def Tray.call (env : Env) (t : Tray) : Call → Tray × List Effect
  | .setState patch => t.setState env patch
  | .setIconImage name dataUrl => t.setIconImage name dataUrl
  | .destroy => t.destroy

/-- A sequence of calls of the public methods, one after the other. -/
def Tray.calls (env : Env) (t : Tray) : List Call → Tray
  | [] => t
  | c :: rest => Tray.calls env (t.call env c).1 rest

/-- The patch `{}`. -/
def StatePatch.empty : StatePatch :=
  { badge := none, status := none, isMainWindowVisible := none, showIcon := none,
    showUserStatus := none }

/-- How many tray objects a list of effects constructs. -/
def creations (effects : List Effect) : Nat :=
  (effects.filter fun e => match e with | .newTrayIcon _ => true | _ => false).length

/-- How many times a list of effects destroys the tray object. -/
def destructions (effects : List Effect) : Nat :=
  effects.count .destroyTrayIcon

/-- How many times a list of effects emits the event `e`. -/
def emissions (e : TrayEvent) (effects : List Effect) : Nat :=
  effects.count (.emit e)

/-! ## User interaction with the tray object -/

/-- A click on the tray object: the listener attached by `createTrayIcon`
(line 97) runs, reading `this.state` at the time of the click. -/
def Tray.clickTrayIcon (t : Tray) : List Effect :=
  match t.trayIcon with
  | some icon =>
    if icon.onClick then [.emit (.setMainWindowVisibility (!t.state.isMainWindowVisible))] else []
  | none => []

/-- Activating the first entry of the context menu last set on the tray object
(lines 140-142): the `click` callback built with that menu runs. -/
def Tray.activateToggle (t : Tray) : List Effect :=
  match t.trayIcon with
  | some icon =>
    match icon.contextMenu with
    | some menu =>
      match menu.template.head? with
      | some item => item.activate
      | none => []
    | none => []
  | none => []

/-! ## Observations on effects and names -/

/-- How many times a list of effects sets the title of the tray object. -/
def titlesSet (effects : List Effect) : Nat :=
  (effects.filter fun e => match e with | .setTitle _ => true | _ => false).length

/-- The events a list of effects emits, in order. -/
def emitted (effects : List Effect) : List TrayEvent :=
  effects.filterMap fun e => match e with | .emit event => some event | _ => none

/-- The fourteen names of the image registry that the data model lists. -/
def iconImageNames : List String :=
  ["normal", "template", "alert", "dot", "9plus", "1", "2", "3", "4", "5", "6", "7", "8", "9"]

/-- Whether a call is a call of `setIconImage`. -/
def Call.isSetIconImage : Call → Bool
  | .setIconImage _ _ => true
  | _ => false

/-! ## The state object without the typing of the data model

`setState` does not inspect its argument, so the object it is given may lack
properties the data model requires. This section embeds the assignment of lines
60-63 on objects whose properties may be `undefined`. -/

/-- A badge object as the program may hold it: a property is `none` when the
object lacks it or holds `undefined` for it. -/
structure RawBadge where
  title : Option String
  count : Option Int
  showAlert : Option Bool
deriving DecidableEq, Repr

/-- The object `this.state` as the program may hold it: a property is `none`
when the object lacks it or holds `undefined` for it. -/
structure RawState where
  badge : Option RawBadge
  status : Option Status
  isMainWindowVisible : Option Bool
  showIcon : Option Bool
  showUserStatus : Option Bool
deriving DecidableEq, Repr

/-- An argument of `setState` as a caller may pass it: for each top-level name,
`none` when the object has no property of that name, and `some v` when it has
one, holding `v` (which is `none` for `undefined`). -/
structure RawPatch where
  badge : Option (Option RawBadge)
  status : Option (Option Status)
  isMainWindowVisible : Option (Option Bool)
  showIcon : Option (Option Bool)
  showUserStatus : Option (Option Bool)
deriving DecidableEq, Repr

/-- The object spread `{ ...state, ...patch }` (lines 60-63) on such objects:
a property of the patch, whatever it holds, replaces the one of the state. -/
def RawState.spread (state : RawState) (patch : RawPatch) : RawState :=
  { badge := patch.badge.getD state.badge,
    status := patch.status.getD state.status,
    isMainWindowVisible := patch.isMainWindowVisible.getD state.isMainWindowVisible,
    showIcon := patch.showIcon.getD state.showIcon,
    showUserStatus := patch.showUserStatus.getD state.showUserStatus }

/-- The field `this.state` after `setState(patch)` (lines 59-65): the spread is
assigned to it, and `update`, called next, does not assign it. -/
def RawState.setState (state : RawState) (patch : RawPatch) : RawState :=
  state.spread patch

/-- The field `this.state` after a sequence of `setState` calls. -/
def RawState.setStates (state : RawState) : List RawPatch → RawState
  | [] => state
  | patch :: rest => RawState.setStates (state.setState patch) rest

/-- Whether the three properties of a badge object all hold a value. -/
def RawBadge.isDefined (badge : RawBadge) : Bool :=
  badge.title.isSome && badge.count.isSome && badge.showAlert.isSome

/-- Whether every field of the state, those of the badge included, holds a value. -/
def RawState.isFullyDefined (state : RawState) : Bool :=
  (match state.badge with
    | some badge => badge.isDefined
    | none => false)
  && state.status.isSome && state.isMainWindowVisible.isSome && state.showIcon.isSome
  && state.showUserStatus.isSome

/-- Whether every property a patch has holds a value, and a badge it has holds
a value for each of its three properties. -/
def RawPatch.isWellFormed (patch : RawPatch) : Bool :=
  (match patch.badge with
    | none => true
    | some none => false
    | some (some badge) => badge.isDefined)
  && (patch.status != some none) && (patch.isMainWindowVisible != some none)
  && (patch.showIcon != some none) && (patch.showUserStatus != some none)

/-- A typed badge as an object all of whose properties hold a value. -/
def Badge.toRaw (badge : Badge) : RawBadge :=
  { title := some badge.title, count := some badge.count, showAlert := some badge.showAlert }

/-- A typed state as an object all of whose properties hold a value. -/
def TrayState.toRaw (state : TrayState) : RawState :=
  { badge := some state.badge.toRaw,
    status := some state.status,
    isMainWindowVisible := some state.isMainWindowVisible,
    showIcon := some state.showIcon,
    showUserStatus := some state.showUserStatus }

/-- A typed patch as an object: the properties it has all hold a value. -/
def StatePatch.toRaw (patch : StatePatch) : RawPatch :=
  { badge := patch.badge.map fun badge => some badge.toRaw,
    status := patch.status.map some,
    isMainWindowVisible := patch.isMainWindowVisible.map some,
    showIcon := patch.showIcon.map some,
    showUserStatus := patch.showUserStatus.map some }

/-- The patch `{ badge: { title: '•' } }`, whose badge has a title only. -/
def titleOnlyPatch : RawPatch :=
  { badge := some (some { title := some "•", count := none, showAlert := none }),
    status := none, isMainWindowVisible := none, showIcon := none, showUserStatus := none }

/-! ## Sample surroundings and controllers -/

/-- A localisation that returns the key itself, with the count after it when pluralising. -/
def sampleI18n : I18n :=
  { translate := fun key => key,
    pluralize := fun key count _ => key ++ " " ++ toString count }

/-- A platform other than darwin. -/
def linuxEnv : Env := { platform := "linux", appleInterfaceStyle := "", i18n := sampleI18n }

/-- The darwin platform in dark mode. -/
def darwinDarkEnv : Env := { platform := "darwin", appleInterfaceStyle := "Dark", i18n := sampleI18n }

/-- The darwin platform in light mode. -/
def darwinLightEnv : Env := { platform := "darwin", appleInterfaceStyle := "", i18n := sampleI18n }

/-- A registry holding one image under each of the names `getIconImage` reads,
the image of name `n` decoded from the URL `data:n`. -/
def sampleImages : List (String × NativeImage) :=
  ["normal", "template", "alert", "dot", "9plus", "1", "2", "3", "4", "5", "6", "7", "8", "9"].map
    fun name => (name, NativeImage.createFromDataURL ("data:" ++ name))

/-- A controller with the sample registry, no tray object and the given badge and status. -/
def sampleTray (badge : Badge) (status : Status) : Tray :=
  { Tray.new with
      state := { Tray.new.state with badge := badge, status := status },
      images := sampleImages }

/-! ## Lemmas shared by the theorems -/

/-- Joining two strings with a blank. -/
theorem intercalate_pair (a b : String) : " ".intercalate [a, b] = a ++ " " ++ b := by
  simp [String.intercalate, String.intercalate.go]

/-- Joining one string gives that string. -/
theorem intercalate_single (a : String) : " ".intercalate [a] = a := by
  simp [String.intercalate, String.intercalate.go]

/-- A string that starts with the escape introducer is not the empty string. -/
theorem esc_append_ne_empty (s : String) : "\x1b[" ++ s ≠ "" := by
  intro h
  have hl := congrArg String.length h
  rw [String.length_append] at hl
  have h2 : ("\x1b[" : String).length = 2 := by decide
  have h0 : ("" : String).length = 0 := by decide
  omega

/-- The status segment computed by `getTrayIconTitle` is kept by `filter(Boolean)`,
and so is the badge-title segment. -/
theorem filterBoolean_segments (a b c : String) :
    filterBoolean [some ("\x1b[" ++ a ++ "m•\x1b[0m"), some ("\x1b[" ++ b ++ "m" ++ c ++ "\x1b[0m")]
      = ["\x1b[" ++ a ++ "m•\x1b[0m", "\x1b[" ++ b ++ "m" ++ c ++ "\x1b[0m"]
    ∧ filterBoolean [some ("\x1b[" ++ a ++ "m•\x1b[0m"), none] = ["\x1b[" ++ a ++ "m•\x1b[0m"]
    ∧ filterBoolean [none, some ("\x1b[" ++ b ++ "m" ++ c ++ "\x1b[0m")]
        = ["\x1b[" ++ b ++ "m" ++ c ++ "\x1b[0m"]
    ∧ filterBoolean [none, none] = [] := by
  have h1 : "\x1b[" ++ a ++ "m•\x1b[0m" ≠ "" := by
    rw [String.append_assoc]; exact esc_append_ne_empty _
  have h2 : "\x1b[" ++ b ++ "m" ++ c ++ "\x1b[0m" ≠ "" := by
    rw [String.append_assoc, String.append_assoc, String.append_assoc]; exact esc_append_ne_empty _
  simp [filterBoolean, h1, h2]

/-- The method `getIconImage` reads the registry under `getIconImageName`. -/
theorem getIconImage_eq (env : Env) (t : Tray) :
    t.getIconImage env = imagesGet t.images (t.getIconImageName env) := by
  unfold Tray.getIconImage Tray.getIconImageName
  split_ifs <;> rfl

/-- The decimal numeral of an integer from 1 to 9 is its digit character. -/
theorem numberToString_digit (n : Int) (h1 : 1 ≤ n) (h9 : n ≤ 9) :
    numberToString n = String.singleton (Char.ofNat (48 + n.toNat)) := by
  interval_cases n <;> decide

/-- Reading the registry under the name just written gives the image written. -/
theorem imagesGet_imagesSet_self (images : List (String × NativeImage)) (name : String)
    (image : NativeImage) : imagesGet (imagesSet images name image) name = some image := by
  induction images with
  | nil => simp [imagesSet, imagesGet, List.lookup]
  | cons kv rest ih =>
    obtain ⟨k, v⟩ := kv
    by_cases hk : k = name
    · simp [imagesSet, imagesGet, List.lookup, hk]
    · have hne : (name == k) = false := by
        simpa using fun h : name = k => hk h.symm
      simp only [imagesSet, imagesGet, if_neg hk, List.lookup, hne]
      exact ih

/-- What `update` leaves alone, and when the tray object exists after it. -/
theorem update_frame (env : Env) (t : Tray) :
    (t.update env).1.state = t.state
    ∧ (t.update env).1.images = t.images
    ∧ (t.update env).1.listeners = t.listeners
    ∧ (t.update env).1.trayIcon.isSome = t.state.showIcon := by
  unfold Tray.update Tray.createTrayIcon Tray.destroyTrayIcon
  cases hi : t.trayIcon <;> cases hs : t.state.showIcon <;> simp [hi, hs]

/-- The values `update` gives to the tray object that exists after it. -/
theorem update_applied (env : Env) (t : Tray) (icon : TrayIcon)
    (h : (t.update env).1.trayIcon = some icon) :
    icon.image = t.getIconImage env
    ∧ icon.toolTip = some (getTrayIconTooltip env t.state)
    ∧ icon.contextMenu = some (Menu.buildFromTemplate (createContextMenuTemplate env t.state))
    ∧ (env.platform = "darwin" → icon.title = some (getTrayIconTitle env t.state)) := by
  unfold Tray.update Tray.createTrayIcon Tray.destroyTrayIcon at h
  cases hi : t.trayIcon <;> cases hs : t.state.showIcon <;>
    by_cases hp : env.platform = "darwin" <;>
    simp [hi, hs, hp, Tray.getIconImage] at h <;>
    subst h <;> simp [Tray.getIconImage, hp]

/-- The effects of `update`, case by case. -/
theorem update_effects (env : Env) (t : Tray) :
    creations (t.update env).2
        = (if t.trayIcon = none ∧ t.state.showIcon = true then 1 else 0)
    ∧ emissions .created (t.update env).2
        = (if t.trayIcon = none ∧ t.state.showIcon = true then 1 else 0)
    ∧ destructions (t.update env).2
        = (if t.trayIcon ≠ none ∧ t.state.showIcon = false then 1 else 0)
    ∧ emissions .destroyed (t.update env).2
        = (if t.trayIcon ≠ none ∧ t.state.showIcon = false then 1 else 0) := by
  unfold Tray.update Tray.createTrayIcon Tray.destroyTrayIcon creations destructions emissions
  cases hi : t.trayIcon <;> cases hs : t.state.showIcon <;>
    by_cases hp : env.platform = "darwin" <;>
    simp [hi, hs, hp, List.count_cons, List.filter]

/-- After any sequence of calls of the public methods on a controller whose
tray object, if it has one, goes with a set `showIcon`, the same is true. -/
theorem calls_present_showIcon (env : Env) (cs : List Call) :
    ∀ t : Tray, (t.trayIcon.isSome = true → t.state.showIcon = true) →
      (t.calls env cs).trayIcon.isSome = true → (t.calls env cs).state.showIcon = true := by
  induction cs with
  | nil => intro t h; exact h
  | cons c rest ih =>
    intro t h
    apply ih
    cases c with
    | setState patch =>
      intro hp
      have hf := update_frame env { t with state := t.state.spread patch }
      simp only [Tray.call, Tray.setState] at hp ⊢
      rw [hf.2.2.2] at hp
      rw [hf.1]
      exact hp
    | setIconImage name dataUrl => exact h
    | destroy =>
      intro hp
      exfalso
      simp only [Tray.call, Tray.destroy, Tray.destroyTrayIcon] at hp
      cases hi : t.trayIcon <;> simp [hi] at hp

/-! ## Existence of the tray object -/

/-- C1: after each call of a sequence of `setState` calls on a freshly
constructed controller, with any registry, the state is the previous state
merged with the patch, and the tray object exists if and only if `showIcon` of
that merged state is true. -/
theorem C1_tray_exists_iff_showIcon (env : Env) (images : List (String × NativeImage))
    (patches : List StatePatch) (patch : StatePatch) :
    ((({ Tray.new with images := images } : Tray).setStates env patches).setState env patch).1.state
        = (({ Tray.new with images := images } : Tray).setStates env patches).state.spread patch
    ∧ (((({ Tray.new with images := images } : Tray).setStates env patches).setState env patch).1.trayIcon.isSome
          = true
        ↔ ((({ Tray.new with images := images } : Tray).setStates env patches).state.spread patch).showIcon
          = true) := by
  generalize ({ Tray.new with images := images } : Tray).setStates env patches = t
  have hf := update_frame env { t with state := t.state.spread patch }
  unfold Tray.setState
  rw [hf.1, hf.2.2.2]
  exact ⟨rfl, Iff.rfl⟩

/-- C2: a `setState` call constructs the tray object and emits `created` once
when there was no tray object and the merged `showIcon` is true, and otherwise
not at all; it destroys the tray object and emits `destroyed` once when there
was a tray object and the merged `showIcon` is false, and otherwise not at all.
So a patch of the status alone, on a controller reached by any calls of the
public methods that has a tray object, constructs and destroys nothing and
leaves the tray object in place with its listeners; and two calls
`setState({showIcon: true})` on a fresh controller construct one tray object. -/
theorem C2_create_destroy_exactly_when_needed (env : Env) :
    (∀ (t : Tray) (patch : StatePatch),
      creations (t.setState env patch).2
          = (if t.trayIcon = none ∧ (t.state.spread patch).showIcon = true then 1 else 0)
      ∧ emissions .created (t.setState env patch).2
          = (if t.trayIcon = none ∧ (t.state.spread patch).showIcon = true then 1 else 0)
      ∧ destructions (t.setState env patch).2
          = (if t.trayIcon ≠ none ∧ (t.state.spread patch).showIcon = false then 1 else 0)
      ∧ emissions .destroyed (t.setState env patch).2
          = (if t.trayIcon ≠ none ∧ (t.state.spread patch).showIcon = false then 1 else 0))
    ∧ (∀ (cs : List Call) (icon : TrayIcon) (status : Status),
        (Tray.new.calls env cs).trayIcon = some icon →
        creations ((Tray.new.calls env cs).setState env
            { StatePatch.empty with status := some status }).2 = 0
        ∧ emissions .created ((Tray.new.calls env cs).setState env
            { StatePatch.empty with status := some status }).2 = 0
        ∧ destructions ((Tray.new.calls env cs).setState env
            { StatePatch.empty with status := some status }).2 = 0
        ∧ emissions .destroyed ((Tray.new.calls env cs).setState env
            { StatePatch.empty with status := some status }).2 = 0
        ∧ ∃ icon1 : TrayIcon,
            ((Tray.new.calls env cs).setState env
              { StatePatch.empty with status := some status }).1.trayIcon = some icon1
            ∧ icon1.onClick = icon.onClick ∧ icon1.onRightClick = icon.onRightClick)
    ∧ creations
          ((Tray.new.setState env { StatePatch.empty with showIcon := some true }).2
            ++ ((Tray.new.setState env { StatePatch.empty with showIcon := some true }).1.setState env
                { StatePatch.empty with showIcon := some true }).2) = 1
    ∧ emissions .created
          ((Tray.new.setState env { StatePatch.empty with showIcon := some true }).2
            ++ ((Tray.new.setState env { StatePatch.empty with showIcon := some true }).1.setState env
                { StatePatch.empty with showIcon := some true }).2) = 1 := by
  have general : ∀ (t : Tray) (patch : StatePatch),
      creations (t.setState env patch).2
          = (if t.trayIcon = none ∧ (t.state.spread patch).showIcon = true then 1 else 0)
      ∧ emissions .created (t.setState env patch).2
          = (if t.trayIcon = none ∧ (t.state.spread patch).showIcon = true then 1 else 0)
      ∧ destructions (t.setState env patch).2
          = (if t.trayIcon ≠ none ∧ (t.state.spread patch).showIcon = false then 1 else 0)
      ∧ emissions .destroyed (t.setState env patch).2
          = (if t.trayIcon ≠ none ∧ (t.state.spread patch).showIcon = false then 1 else 0) :=
    fun t patch => update_effects env { t with state := t.state.spread patch }
  refine ⟨general, ?_, ?_, ?_⟩
  · intro cs icon status hicon
    have hshow : (Tray.new.calls env cs).state.showIcon = true :=
      calls_present_showIcon env cs Tray.new (by decide) (by rw [hicon]; rfl)
    generalize Tray.new.calls env cs = t at hicon hshow
    have hmerged : (t.state.spread { StatePatch.empty with status := some status }).showIcon = true := by
      simpa [TrayState.spread, StatePatch.empty] using hshow
    obtain ⟨h1, h2, h3, h4⟩ := general t { StatePatch.empty with status := some status }
    refine ⟨?_, ?_, ?_, ?_, ?_⟩
    · rw [h1]; simp [hicon]
    · rw [h2]; simp [hicon]
    · rw [h3]; simp [hmerged]
    · rw [h4]; simp [hmerged]
    · unfold Tray.setState Tray.update Tray.createTrayIcon Tray.destroyTrayIcon
      by_cases hp : env.platform = "darwin" <;> simp [hicon, hmerged, hp]
  · unfold creations
    rw [List.filter_append, List.length_append]
    have h1 := (general Tray.new { StatePatch.empty with showIcon := some true }).1
    have hf := update_frame env
      { Tray.new with state := Tray.new.state.spread { StatePatch.empty with showIcon := some true } }
    have h2 := (general (Tray.new.setState env { StatePatch.empty with showIcon := some true }).1
      { StatePatch.empty with showIcon := some true }).1
    unfold creations at h1 h2
    rw [h1, h2]
    have hsome : (Tray.new.setState env { StatePatch.empty with showIcon := some true }).1.trayIcon
        ≠ none := by
      intro hn
      have := hf.2.2.2
      unfold Tray.setState at hn
      rw [hn] at this
      exact absurd this (by decide)
    simp [hsome]
    decide
  · unfold emissions
    rw [List.count_append]
    have h1 := (general Tray.new { StatePatch.empty with showIcon := some true }).2.1
    have hf := update_frame env
      { Tray.new with state := Tray.new.state.spread { StatePatch.empty with showIcon := some true } }
    have h2 := (general (Tray.new.setState env { StatePatch.empty with showIcon := some true }).1
      { StatePatch.empty with showIcon := some true }).2.1
    unfold emissions at h1 h2
    rw [h1, h2]
    have hsome : (Tray.new.setState env { StatePatch.empty with showIcon := some true }).1.trayIcon
        ≠ none := by
      intro hn
      have := hf.2.2.2
      unfold Tray.setState at hn
      rw [hn] at this
      exact absurd this (by decide)
    simp [hsome]
    decide

/-- An instance of C2 at a controller that
registered an image and reconciled once, then receives a patch of the status. -/
theorem C2_create_destroy_exactly_when_needed_witness :
    (Tray.new.calls linuxEnv
        [.setIconImage "normal" "data:normal", .setState StatePatch.empty]).trayIcon
      = some
          { image := some ⟨"data:normal"⟩, toolTip := some "Message_count 0", title := none,
            contextMenu := some ⟨[⟨"Hide", .setMainWindowVisibility false⟩, ⟨"Quit", .quit⟩]⟩,
            onClick := true, onRightClick := true }
    ∧ creations
        ((Tray.new.calls linuxEnv
            [.setIconImage "normal" "data:normal", .setState StatePatch.empty]).setState linuxEnv
          { StatePatch.empty with status := some .away }).2 = 0 :=
  ⟨by decide,
   ((C2_create_destroy_exactly_when_needed linuxEnv).2.1
      [.setIconImage "normal" "data:normal", .setState StatePatch.empty]
      { image := some ⟨"data:normal"⟩, toolTip := some "Message_count 0", title := none,
        contextMenu := some ⟨[⟨"Hide", .setMainWindowVisibility false⟩, ⟨"Quit", .quit⟩]⟩,
        onClick := true, onRightClick := true }
      .away (by decide)).1⟩

/-! ## Icon selection -/

/-- C3: when `badge.title` is the bullet character, `getIconImage` returns the
registry entry `dot`, whatever the count, the alert flag, the status, the other
state fields, the registry and the platform are. -/
theorem C3_bullet_title_selects_dot (env : Env) (t : Tray)
    (htitle : t.state.badge.title = "•") :
    t.getIconImage env = imagesGet t.images "dot" := by
  simp [Tray.getIconImage, htitle]

/-- An instance of C3 at a busy state with the bullet
title, count 15 and the alert set. -/
theorem C3_bullet_title_selects_dot_witness :
    (sampleTray ⟨"•", 15, true⟩ .busy).state.badge.title = "•"
    ∧ (sampleTray ⟨"•", 15, true⟩ .busy).getIconImage linuxEnv
        = imagesGet (sampleTray ⟨"•", 15, true⟩ .busy).images "dot" :=
  ⟨by decide, C3_bullet_title_selects_dot linuxEnv (sampleTray ⟨"•", 15, true⟩ .busy) (by decide)⟩

/-- C4: when `badge.title` is not the bullet and `badge.count` is positive,
`getIconImage` returns the registry entry named by the decimal digit of the
count for counts 1 to 9, and the entry `9plus` for counts of 10 and more (so
`5` for count 5 and `9plus` for count 15); negating the alert flag does not
change the result. -/
theorem C4_positive_count_selects_digit_or_9plus (env : Env) (t : Tray)
    (htitle : t.state.badge.title ≠ "•") (hcount : 0 < t.state.badge.count) :
    (t.state.badge.count ≤ 9 →
        t.getIconImage env
          = imagesGet t.images (String.singleton (Char.ofNat (48 + t.state.badge.count.toNat))))
    ∧ (10 ≤ t.state.badge.count → t.getIconImage env = imagesGet t.images "9plus")
    ∧ (t.state.badge.count = 5 → t.getIconImage env = imagesGet t.images "5")
    ∧ (t.state.badge.count = 15 → t.getIconImage env = imagesGet t.images "9plus")
    ∧ t.getIconImage env
        = ({ t with state := { t.state with
              badge := { t.state.badge with showAlert := !t.state.badge.showAlert } } } : Tray).getIconImage env := by
  have hpos : t.state.badge.count > 0 := hcount
  refine ⟨?_, ?_, ?_, ?_, ?_⟩
  · intro h9
    have hn : ¬ t.state.badge.count > 9 := by omega
    simp only [Tray.getIconImage, htitle, hpos, hn, if_true, if_false]
    rw [numberToString_digit _ (by omega) h9]
  · intro h10
    have hn : t.state.badge.count > 9 := by omega
    simp only [Tray.getIconImage, htitle, hpos, hn, if_true, if_false]
  · intro h5
    have hs : numberToString 5 = "5" := by decide
    simp only [Tray.getIconImage, htitle, h5, if_false]
    rw [if_pos (by decide), if_neg (by decide), hs]
  · intro h15
    simp only [Tray.getIconImage, htitle, h15, if_false]
    rw [if_pos (by decide), if_pos (by decide)]
  · simp only [Tray.getIconImage, htitle, hpos, if_true, if_false]

/-- An instance of C4 at count 5 with the
alert set: the image registered as `5` is selected, not the one registered as
`alert`. -/
theorem C4_positive_count_selects_digit_or_9plus_witness :
    (sampleTray ⟨"", 5, true⟩ .online).state.badge.title ≠ "•"
    ∧ 0 < (sampleTray ⟨"", 5, true⟩ .online).state.badge.count
    ∧ (sampleTray ⟨"", 5, true⟩ .online).getIconImage linuxEnv
        = imagesGet (sampleTray ⟨"", 5, true⟩ .online).images "5" :=
  ⟨by decide, by decide,
   (C4_positive_count_selects_digit_or_9plus linuxEnv (sampleTray ⟨"", 5, true⟩ .online)
      (by decide) (by decide)).2.2.1 rfl⟩

/-- C5: when `badge.title` is not the bullet and `badge.count` is 0,
`getIconImage` returns the registry entry `alert` if `badge.showAlert` is set,
and otherwise the entry `template` on darwin and `normal` on any other platform. -/
theorem C5_zero_count_selects_alert_or_default (env : Env) (t : Tray)
    (htitle : t.state.badge.title ≠ "•") (hcount : t.state.badge.count = 0) :
    (t.state.badge.showAlert = true → t.getIconImage env = imagesGet t.images "alert")
    ∧ (t.state.badge.showAlert = false → env.platform = "darwin" →
        t.getIconImage env = imagesGet t.images "template")
    ∧ (t.state.badge.showAlert = false → env.platform ≠ "darwin" →
        t.getIconImage env = imagesGet t.images "normal") := by
  refine ⟨?_, ?_, ?_⟩
  · intro ha
    simp [Tray.getIconImage, htitle, hcount, ha]
  · intro ha hp
    simp [Tray.getIconImage, htitle, hcount, ha, hp]
  · intro ha hp
    simp [Tray.getIconImage, htitle, hcount, ha, hp]

/-- An instance of C5 at the constructor's
badge on a platform other than darwin: the entry `normal` is selected. -/
theorem C5_zero_count_selects_alert_or_default_witness :
    (sampleTray ⟨"", 0, false⟩ .online).state.badge.title ≠ "•"
    ∧ (sampleTray ⟨"", 0, false⟩ .online).state.badge.count = 0
    ∧ (sampleTray ⟨"", 0, false⟩ .online).getIconImage linuxEnv
        = imagesGet (sampleTray ⟨"", 0, false⟩ .online).images "normal" :=
  ⟨by decide, by decide,
   (C5_zero_count_selects_alert_or_default linuxEnv (sampleTray ⟨"", 0, false⟩ .online)
      (by decide) (by decide)).2.2 (by decide) (by decide)⟩

/-! ## Title composition -/

/-- C6: with `showUserStatus` and `showAlert` set and a positive count,
`getTrayIconTitle` returns the status segment, one blank, and the badge-title
segment, in that order; the badge-title segment is `badge.title` between the
escape `ESC[37m` in dark mode (`ESC[0m` otherwise) and the reset `ESC[0m`. -/
theorem C6_title_status_then_badge (env : Env) (state : TrayState)
    (hstatus : state.showUserStatus = true) (halert : state.badge.showAlert = true)
    (hcount : 0 < state.badge.count) :
    getTrayIconTitle env state
      = ("\x1b["
          ++ (match state.status with
              | .online => "32"
              | .away => "33"
              | .busy => "31"
              | .offline => if env.appleInterfaceStyle = "Dark" then "37" else "0")
          ++ "m•\x1b[0m")
        ++ " "
        ++ ((if env.appleInterfaceStyle = "Dark" then "\x1b[37m" else "\x1b[0m")
            ++ state.badge.title ++ "\x1b[0m") := by
  have hc : state.badge.count > 0 := hcount
  unfold getTrayIconTitle
  simp only [hstatus, halert, hc, decide_True, Bool.and_self, if_true]
  rw [(filterBoolean_segments _ _ _).1, intercalate_pair]
  by_cases hd : env.appleInterfaceStyle = "Dark"
  · cases hst : state.status <;> simp [hd]
  · cases hst : state.status <;> simp [hd]

/-- An instance of C6 at count 3 and title `•3`, online, in dark mode. -/
theorem C6_title_status_then_badge_witness :
    (sampleTray ⟨"•3", 3, true⟩ .online).state.showUserStatus = true
    ∧ (sampleTray ⟨"•3", 3, true⟩ .online).state.badge.showAlert = true
    ∧ 0 < (sampleTray ⟨"•3", 3, true⟩ .online).state.badge.count
    ∧ getTrayIconTitle darwinDarkEnv (sampleTray ⟨"•3", 3, true⟩ .online).state
        = "\x1b[32m•\x1b[0m \x1b[37m•3\x1b[0m" :=
  ⟨by decide, by decide, by decide,
   (C6_title_status_then_badge darwinDarkEnv (sampleTray ⟨"•3", 3, true⟩ .online).state
      (by decide) (by decide) (by decide)).trans (by decide)⟩

/-- C7: with `showUserStatus` set and no mentions (`showAlert` unset or a count
that is not positive), `getTrayIconTitle` returns the status segment alone: the
bullet between `ESC[<c>m` and `ESC[0m`, where `<c>` is 32 for online, 33 for
away, 31 for busy and, for offline, 37 in dark mode and 0 otherwise; the result
is the same for every `badge.title`. -/
theorem C7_title_status_only (env : Env) (state : TrayState)
    (hstatus : state.showUserStatus = true)
    (hmentions : ¬ (state.badge.showAlert = true ∧ 0 < state.badge.count)) :
    (state.status = .online → getTrayIconTitle env state = "\x1b[32m•\x1b[0m")
    ∧ (state.status = .away → getTrayIconTitle env state = "\x1b[33m•\x1b[0m")
    ∧ (state.status = .busy → getTrayIconTitle env state = "\x1b[31m•\x1b[0m")
    ∧ (state.status = .offline → env.appleInterfaceStyle = "Dark" →
        getTrayIconTitle env state = "\x1b[37m•\x1b[0m")
    ∧ (state.status = .offline → env.appleInterfaceStyle ≠ "Dark" →
        getTrayIconTitle env state = "\x1b[0m•\x1b[0m")
    ∧ ∀ title : String,
        getTrayIconTitle env { state with badge := { state.badge with title := title } }
          = getTrayIconTitle env state := by
  have hm : (state.badge.showAlert && decide (state.badge.count > 0)) = false := by
    cases ha : state.badge.showAlert
    · rfl
    · have : ¬ state.badge.count > 0 := fun hc => hmentions ⟨ha, hc⟩
      simp [this]
  have key : ∀ st : TrayState, st.showUserStatus = true →
      (st.badge.showAlert && decide (st.badge.count > 0)) = false →
      getTrayIconTitle env st
        = "\x1b["
          ++ (match st.status with
              | .online => "32"
              | .away => "33"
              | .busy => "31"
              | .offline => if (env.appleInterfaceStyle == "Dark") = true then "37" else "0")
          ++ "m•\x1b[0m" := by
    intro st h1 h2
    unfold getTrayIconTitle
    simp only [h1, h2, if_true]
    rw [show (if false = true then
              some ("\x1b[" ++ (if (env.appleInterfaceStyle == "Dark") = true then "37" else "0")
                ++ "m" ++ st.badge.title ++ "\x1b[0m")
            else none) = (none : Option String) from rfl]
    rw [(filterBoolean_segments _ "" "").2.1, intercalate_single]
  refine ⟨?_, ?_, ?_, ?_, ?_, ?_⟩
  · intro hs; rw [key state hstatus hm, hs]; rfl
  · intro hs; rw [key state hstatus hm, hs]; rfl
  · intro hs; rw [key state hstatus hm, hs]; rfl
  · intro hs hd; rw [key state hstatus hm, hs]; simp [hd]
  · intro hs hd; rw [key state hstatus hm, hs]; simp [hd]
  · intro title
    rw [key state hstatus hm]
    exact key { state with badge := { state.badge with title := title } } hstatus hm

/-- An instance of C7 at the constructor's state: online, no
alert, so the title is the green bullet alone. -/
theorem C7_title_status_only_witness :
    Tray.new.state.showUserStatus = true
    ∧ ¬ (Tray.new.state.badge.showAlert = true ∧ 0 < Tray.new.state.badge.count)
    ∧ getTrayIconTitle darwinLightEnv Tray.new.state = "\x1b[32m•\x1b[0m" :=
  ⟨by decide, by decide,
   (C7_title_status_only darwinLightEnv Tray.new.state (by decide) (by decide)).1 (by decide)⟩

/-- C8: with `showUserStatus` unset, `getTrayIconTitle` returns the empty
string when there are no mentions, and with mentions (`showAlert` set and a
positive count) exactly the badge-title segment: `badge.title` between
`ESC[37m` in dark mode (`ESC[0m` otherwise) and `ESC[0m`, with nothing before it. -/
theorem C8_title_without_status (env : Env) (state : TrayState)
    (hstatus : state.showUserStatus = false) :
    (¬ (state.badge.showAlert = true ∧ 0 < state.badge.count) →
        getTrayIconTitle env state = "")
    ∧ (state.badge.showAlert = true → 0 < state.badge.count →
        getTrayIconTitle env state
          = (if env.appleInterfaceStyle = "Dark" then "\x1b[37m" else "\x1b[0m")
            ++ state.badge.title ++ "\x1b[0m") := by
  constructor
  · intro hmentions
    have hm : (state.badge.showAlert && decide (state.badge.count > 0)) = false := by
      cases ha : state.badge.showAlert
      · rfl
      · have : ¬ state.badge.count > 0 := fun hc => hmentions ⟨ha, hc⟩
        simp [this]
    unfold getTrayIconTitle
    simp only [hstatus, hm]
    rfl
  · intro halert hcount
    have hc : state.badge.count > 0 := hcount
    unfold getTrayIconTitle
    simp only [hstatus, halert, hc, decide_True, Bool.and_self, if_true]
    rw [show (if false = true then
              some ("\x1b[" ++ (match state.status with
                | .online => "32"
                | .away => "33"
                | .busy => "31"
                | .offline => if (env.appleInterfaceStyle == "Dark") = true then "37" else "0")
                ++ "m•\x1b[0m")
            else none) = (none : Option String) from rfl]
    rw [(filterBoolean_segments "" _ _).2.2.1, intercalate_single]
    by_cases hd : env.appleInterfaceStyle = "Dark" <;> simp [hd]

/-- An instance of C8 at count 3 and title `•3` in light
mode with the status hidden: the title is the badge-title segment alone. -/
theorem C8_title_without_status_witness :
    ({ (sampleTray ⟨"•3", 3, true⟩ .busy).state with showUserStatus := false } : TrayState).showUserStatus
        = false
    ∧ getTrayIconTitle darwinLightEnv
          { (sampleTray ⟨"•3", 3, true⟩ .busy).state with showUserStatus := false }
        = "\x1b[0m•3\x1b[0m" :=
  ⟨by decide,
   ((C8_title_without_status darwinLightEnv
      { (sampleTray ⟨"•3", 3, true⟩ .busy).state with showUserStatus := false }
      (by decide)).2 (by decide) (by decide)).trans (by decide)⟩

/-! ## Context menu -/

/-- C9: `createContextMenuTemplate` returns two entries, the toggle entry and
then the quit entry. The toggle entry is labelled with the translation of
`Hide` when the main window is visible and of `Show` when it is not, and
activating it emits `set-main-window-visibility` with the negation of
`isMainWindowVisible`; the quit entry is labelled with the translation of
`Quit` and activating it emits `quit`. -/
theorem C9_context_menu_template (env : Env) (state : TrayState) :
    ∃ toggle quit : MenuItem,
      createContextMenuTemplate env state = [toggle, quit]
      ∧ (state.isMainWindowVisible = true → toggle.label = env.i18n.translate "Hide")
      ∧ (state.isMainWindowVisible = false → toggle.label = env.i18n.translate "Show")
      ∧ toggle.activate = [.emit (.setMainWindowVisibility (!state.isMainWindowVisible))]
      ∧ quit.label = env.i18n.translate "Quit"
      ∧ quit.activate = [.emit .quit] := by
  refine ⟨_, _, rfl, ?_, ?_, rfl, rfl, rfl⟩
  · intro h; simp [h]
  · intro h; simp [h]

/-- An instance of C9 at the constructor's state, where
the main window is visible. -/
theorem C9_context_menu_template_witness :
    ∃ toggle quit : MenuItem,
      createContextMenuTemplate linuxEnv Tray.new.state = [toggle, quit]
      ∧ toggle.label = "Hide"
      ∧ toggle.activate = [.emit (.setMainWindowVisibility false)]
      ∧ quit.label = "Quit"
      ∧ quit.activate = [.emit .quit] := by
  obtain ⟨toggle, quit, h, hHide, _, hact, hq, hqa⟩ :=
    C9_context_menu_template linuxEnv Tray.new.state
  exact ⟨toggle, quit, h, hHide rfl, hact, hq, hqa⟩

/-! ## Values applied to the tray object -/

/-- C10: when a tray object exists after a `setState` call, its image is what
`getIconImage` returns for the merged state and the registry, its tooltip is
the pluralised message count of the merged state and its context menu is the
menu built from the template of the merged state; the call performs the
matching `setImage`, `setToolTip` and `setContextMenu`, and nothing else of the
controller before the call enters these values. So when `setIconImage(name, data)`
is followed by a `setState` whose merged state selects `name`, the image of
the tray object is the one decoded from `data`. -/
theorem C10_applied_values_from_merged_state (env : Env) :
    (∀ (t : Tray) (patch : StatePatch) (icon : TrayIcon),
      (t.setState env patch).1.trayIcon = some icon →
      (t.setState env patch).1.state = t.state.spread patch
      ∧ (t.setState env patch).1.images = t.images
      ∧ icon.image
          = ({ state := t.state.spread patch, trayIcon := none, images := t.images,
               listeners := [] } : Tray).getIconImage env
      ∧ icon.toolTip = some (getTrayIconTooltip env (t.state.spread patch))
      ∧ icon.contextMenu
          = some (Menu.buildFromTemplate (createContextMenuTemplate env (t.state.spread patch)))
      ∧ Effect.setImage icon.image ∈ (t.setState env patch).2
      ∧ Effect.setToolTip (getTrayIconTooltip env (t.state.spread patch)) ∈ (t.setState env patch).2
      ∧ Effect.setContextMenu
            (Menu.buildFromTemplate (createContextMenuTemplate env (t.state.spread patch)))
          ∈ (t.setState env patch).2)
    ∧ (∀ (t : Tray) (name dataUrl : String) (patch : StatePatch) (icon : TrayIcon),
        ((t.setIconImage name dataUrl).1.setState env patch).1.trayIcon = some icon →
        ((t.setIconImage name dataUrl).1.setState env patch).1.getIconImageName env = name →
        icon.image = some (NativeImage.createFromDataURL dataUrl)) := by
  have first : ∀ (t : Tray) (patch : StatePatch) (icon : TrayIcon),
      (t.setState env patch).1.trayIcon = some icon →
      icon.image = (t.setState env patch).1.getIconImage env := by
    intro t patch icon h
    have hf := update_frame env { t with state := t.state.spread patch }
    have ha := update_applied env { t with state := t.state.spread patch } icon h
    rw [ha.1]
    unfold Tray.setState
    simp only [Tray.getIconImage, hf.1, hf.2.1]
  constructor
  · intro t patch icon h
    have hf := update_frame env { t with state := t.state.spread patch }
    have ha := update_applied env { t with state := t.state.spread patch } icon h
    refine ⟨hf.1, hf.2.1, ha.1, ha.2.1, ha.2.2.1, ?_, ?_, ?_⟩
    · rw [ha.1]
      have hshow : (t.state.spread patch).showIcon = true := by
        have := hf.2.2.2
        unfold Tray.setState at h
        rw [h] at this
        exact this.symm
      unfold Tray.setState Tray.update Tray.createTrayIcon Tray.destroyTrayIcon
      cases hi : t.trayIcon <;> by_cases hp : env.platform = "darwin" <;>
        simp [hi, hshow, hp, Tray.getIconImage]
    · have hshow : (t.state.spread patch).showIcon = true := by
        have := hf.2.2.2
        unfold Tray.setState at h
        rw [h] at this
        exact this.symm
      unfold Tray.setState Tray.update Tray.createTrayIcon Tray.destroyTrayIcon
      cases hi : t.trayIcon <;> by_cases hp : env.platform = "darwin" <;>
        simp [hi, hshow, hp]
    · have hshow : (t.state.spread patch).showIcon = true := by
        have := hf.2.2.2
        unfold Tray.setState at h
        rw [h] at this
        exact this.symm
      unfold Tray.setState Tray.update Tray.createTrayIcon Tray.destroyTrayIcon
      cases hi : t.trayIcon <;> by_cases hp : env.platform = "darwin" <;>
        simp [hi, hshow, hp]
  · intro t name dataUrl patch icon h hname
    have hf := update_frame env
      { (t.setIconImage name dataUrl).1 with
          state := (t.setIconImage name dataUrl).1.state.spread patch }
    rw [first _ patch icon h, getIconImage_eq, hname]
    unfold Tray.setState
    rw [hf.2.1]
    exact imagesGet_imagesSet_self t.images name (NativeImage.createFromDataURL dataUrl)

/-- An instance of C10 at a fresh controller on
which an image is registered as `5` before a patch sets the count to 5. -/
theorem C10_applied_values_from_merged_state_witness :
    ((Tray.new.setIconImage "5" "data:five").1.setState linuxEnv
        { StatePatch.empty with badge := some ⟨"", 5, false⟩ }).1.trayIcon
      = some
          { image := some ⟨"data:five"⟩, toolTip := some "Message_count 5", title := none,
            contextMenu := some ⟨[⟨"Hide", .setMainWindowVisibility false⟩, ⟨"Quit", .quit⟩]⟩,
            onClick := true, onRightClick := true }
    ∧ ((Tray.new.setIconImage "5" "data:five").1.setState linuxEnv
        { StatePatch.empty with badge := some ⟨"", 5, false⟩ }).1.getIconImageName linuxEnv = "5"
    ∧ (some ⟨"data:five"⟩ : Option NativeImage)
        = some (NativeImage.createFromDataURL "data:five") :=
  ⟨by decide, by decide,
   (C10_applied_values_from_merged_state linuxEnv).2 Tray.new "5" "data:five"
      { StatePatch.empty with badge := some ⟨"", 5, false⟩ }
      { image := some ⟨"data:five"⟩, toolTip := some "Message_count 5", title := none,
        contextMenu := some ⟨[⟨"Hide", .setMainWindowVisibility false⟩, ⟨"Quit", .quit⟩]⟩,
        onClick := true, onRightClick := true }
      (by decide) (by decide)⟩

/-! ## Lemmas for state merging, registry writes and call sequences -/

/-- Reading the registry under a name other than the one just written gives
what it gave before the write. -/
theorem imagesGet_imagesSet_other (images : List (String × NativeImage)) (name other : String)
    (image : NativeImage) (hne : other ≠ name) :
    imagesGet (imagesSet images name image) other = imagesGet images other := by
  induction images with
  | nil =>
    have h : (other == name) = false := by simpa using hne
    simp [imagesSet, imagesGet, List.lookup, h]
  | cons kv rest ih =>
    obtain ⟨k, v⟩ := kv
    by_cases hk : k = name
    · subst hk
      have h : (other == k) = false := by simpa using hne
      simp [imagesSet, imagesGet, List.lookup, h]
    · simp only [imagesSet, if_neg hk, imagesGet, List.lookup]
      cases hok : other == k
      · exact ih
      · rfl

/-- The typed spread is the spread of objects, on objects that are fully defined. -/
theorem spread_toRaw (state : TrayState) (patch : StatePatch) :
    (state.spread patch).toRaw = state.toRaw.spread patch.toRaw := by
  cases hb : patch.badge <;> cases hs : patch.status <;> cases hv : patch.isMainWindowVisible <;>
    cases hi : patch.showIcon <;> cases hu : patch.showUserStatus <;>
    simp [TrayState.spread, RawState.spread, TrayState.toRaw, StatePatch.toRaw, hb, hs, hv, hi, hu]

/-- A property that every call of a public method preserves holds after any
sequence of such calls. -/
theorem calls_preserve (env : Env) (P : Tray → Prop)
    (hstep : ∀ (t : Tray) (c : Call), P t → P (t.call env c).1) (cs : List Call) :
    ∀ t : Tray, P t → P (t.calls env cs) := by
  induction cs with
  | nil => intro t h; exact h
  | cons c rest ih => intro t h; exact ih _ (hstep t c h)

/-- Running two sequences of calls one after the other. -/
theorem calls_append (env : Env) (cs ds : List Call) :
    ∀ t : Tray, t.calls env (cs ++ ds) = (t.calls env cs).calls env ds := by
  induction cs with
  | nil => intro t; rfl
  | cons c rest ih => intro t; exact ih _

/-! ## State merging -/

/-- C11: `setState(patch)` merges shallowly. Each of the five top-level fields
of the merged state holds the value of the patch when the patch has the field
and the previous value when it has not; a badge in the patch becomes the badge
of the state as a whole, also when it lacks properties, so that no title, count
or alert flag of the old badge is kept. -/
theorem C11_setState_shallow_merge (env : Env) (t : Tray) (patch : StatePatch) :
    (∀ b, patch.badge = some b → (t.setState env patch).1.state.badge = b)
    ∧ (patch.badge = none → (t.setState env patch).1.state.badge = t.state.badge)
    ∧ (∀ v, patch.status = some v → (t.setState env patch).1.state.status = v)
    ∧ (patch.status = none → (t.setState env patch).1.state.status = t.state.status)
    ∧ (∀ v, patch.isMainWindowVisible = some v →
        (t.setState env patch).1.state.isMainWindowVisible = v)
    ∧ (patch.isMainWindowVisible = none →
        (t.setState env patch).1.state.isMainWindowVisible = t.state.isMainWindowVisible)
    ∧ (∀ v, patch.showIcon = some v → (t.setState env patch).1.state.showIcon = v)
    ∧ (patch.showIcon = none → (t.setState env patch).1.state.showIcon = t.state.showIcon)
    ∧ (∀ v, patch.showUserStatus = some v → (t.setState env patch).1.state.showUserStatus = v)
    ∧ (patch.showUserStatus = none →
        (t.setState env patch).1.state.showUserStatus = t.state.showUserStatus)
    ∧ (t.setState env patch).1.state.toRaw = t.state.toRaw.setState patch.toRaw
    ∧ (∀ (state : RawState) (raw : RawPatch) (b : Option RawBadge),
        raw.badge = some b → (state.setState raw).badge = b) := by
  have hf := (update_frame env { t with state := t.state.spread patch }).1
  have hstate : (t.setState env patch).1.state = t.state.spread patch := hf
  rw [hstate]
  refine ⟨?_, ?_, ?_, ?_, ?_, ?_, ?_, ?_, ?_, ?_, ?_, ?_⟩
  · intro b h; simp [TrayState.spread, h]
  · intro h; simp [TrayState.spread, h]
  · intro b h; simp [TrayState.spread, h]
  · intro h; simp [TrayState.spread, h]
  · intro b h; simp [TrayState.spread, h]
  · intro h; simp [TrayState.spread, h]
  · intro b h; simp [TrayState.spread, h]
  · intro h; simp [TrayState.spread, h]
  · intro b h; simp [TrayState.spread, h]
  · intro h; simp [TrayState.spread, h]
  · exact spread_toRaw t.state patch
  · intro state raw b h; simp [RawState.setState, RawState.spread, h]

/-- An instance of C11: a patch with a badge and nothing else, on the fresh
controller, replaces the badge and keeps the status. -/
theorem C11_setState_shallow_merge_witness :
    ({ StatePatch.empty with badge := some ⟨"•", 2, true⟩ } : StatePatch).badge = some ⟨"•", 2, true⟩
    ∧ ({ StatePatch.empty with badge := some ⟨"•", 2, true⟩ } : StatePatch).status = none
    ∧ (Tray.new.setState linuxEnv { StatePatch.empty with badge := some ⟨"•", 2, true⟩ }).1.state.badge
        = ⟨"•", 2, true⟩
    ∧ (Tray.new.setState linuxEnv { StatePatch.empty with badge := some ⟨"•", 2, true⟩ }).1.state.status
        = Tray.new.state.status :=
  ⟨by decide, by decide,
   (C11_setState_shallow_merge linuxEnv Tray.new
      { StatePatch.empty with badge := some ⟨"•", 2, true⟩ }).1 _ (by decide),
   (C11_setState_shallow_merge linuxEnv Tray.new
      { StatePatch.empty with badge := some ⟨"•", 2, true⟩ }).2.2.2.1 (by decide)⟩

/-- A patch whose properties all hold a value keeps a fully defined state
fully defined. -/
theorem spread_isFullyDefined (state : RawState) (patch : RawPatch)
    (hs : state.isFullyDefined = true) (hp : patch.isWellFormed = true) :
    (state.spread patch).isFullyDefined = true := by
  obtain ⟨sb, ss, sv, si, su⟩ := state
  obtain ⟨pb, ps, pv, pi, pu⟩ := patch
  simp only [RawState.isFullyDefined, RawPatch.isWellFormed, RawState.spread,
    Bool.and_eq_true, bne_iff_ne, ne_eq] at hs hp ⊢
  obtain ⟨⟨⟨⟨hsb, hss⟩, hsv⟩, hsi⟩, hsu⟩ := hs
  obtain ⟨⟨⟨⟨hpb, hps⟩, hpv⟩, hpi⟩, hpu⟩ := hp
  refine ⟨⟨⟨⟨?_, ?_⟩, ?_⟩, ?_⟩, ?_⟩
  · cases pb with
    | none => simpa using hsb
    | some v =>
      cases v with
      | none => simp at hpb
      | some b => simpa using hpb
  · cases ps with
    | none => simpa using hss
    | some v => cases v with
      | none => exact absurd rfl hps
      | some _ => rfl
  · cases pv with
    | none => simpa using hsv
    | some v => cases v with
      | none => exact absurd rfl hpv
      | some _ => rfl
  · cases pi with
    | none => simpa using hsi
    | some v => cases v with
      | none => exact absurd rfl hpi
      | some _ => rfl
  · cases pu with
    | none => simpa using hsu
    | some v => cases v with
      | none => exact absurd rfl hpu
      | some _ => rfl

/-- A typed patch, as an object, has a value for each property it has. -/
theorem toRaw_isWellFormed (patch : StatePatch) : patch.toRaw.isWellFormed = true := by
  obtain ⟨pb, ps, pv, pi, pu⟩ := patch
  cases pb <;> cases ps <;> cases pv <;> cases pi <;> cases pu <;>
    simp [StatePatch.toRaw, RawPatch.isWellFormed, RawBadge.isDefined, Badge.toRaw]

/-- A counterexample to C12 as stated: after `setState({ badge: { title: '•' } })`
on the constructor's state, `badge.count` and `badge.showAlert` hold no value,
so the state is not fully defined. -/
theorem C12_title_only_badge_leaves_count_unset :
    (Tray.new.state.toRaw.setStates [titleOnlyPatch]).isFullyDefined = false
    ∧ ((Tray.new.state.toRaw.setStates [titleOnlyPatch]).badge.bind fun b => b.count) = none
    ∧ ((Tray.new.state.toRaw.setStates [titleOnlyPatch]).badge.bind fun b => b.showAlert) = none
    ∧ ¬ (∀ patches : List RawPatch,
          (Tray.new.state.toRaw.setStates patches).isFullyDefined = true) := by
  refine ⟨by decide, by decide, by decide, ?_⟩
  intro h
  exact absurd (h [titleOnlyPatch]) (by decide)

/-- C12, amended: the constructor's state is fully defined, and it stays fully
defined after every sequence of `setState` calls whose patches hold a value for
each property they have, a badge in a patch holding a title, a count and an
alert flag; the patches of the typed data model are such patches. -/
theorem C12_state_fully_defined_for_well_formed_patches (patches : List RawPatch)
    (hp : ∀ patch ∈ patches, patch.isWellFormed = true) :
    Tray.new.state.toRaw.isFullyDefined = true
    ∧ (Tray.new.state.toRaw.setStates patches).isFullyDefined = true
    ∧ (∀ typed : StatePatch, typed.toRaw.isWellFormed = true) := by
  have key : ∀ (ps : List RawPatch) (state : RawState),
      (∀ patch ∈ ps, patch.isWellFormed = true) → state.isFullyDefined = true →
      (state.setStates ps).isFullyDefined = true := by
    intro ps
    induction ps with
    | nil => intro state _ h; exact h
    | cons p rest ih =>
      intro state hall h
      exact ih _ (fun q hq => hall q (List.mem_cons_of_mem _ hq))
        (spread_isFullyDefined state p h (hall p (List.mem_cons_self _ _)))
  have h0 : Tray.new.state.toRaw.isFullyDefined = true := by decide
  exact ⟨h0, key patches _ hp h0, toRaw_isWellFormed⟩

/-- An instance of C12 as amended: a patch with a whole badge followed by a
patch of `showIcon`. -/
theorem C12_state_fully_defined_for_well_formed_patches_witness :
    (∀ patch ∈ [({ StatePatch.empty with badge := some ⟨"•", 2, true⟩ } : StatePatch).toRaw,
                ({ StatePatch.empty with showIcon := some false } : StatePatch).toRaw],
        patch.isWellFormed = true)
    ∧ (Tray.new.state.toRaw.setStates
        [({ StatePatch.empty with badge := some ⟨"•", 2, true⟩ } : StatePatch).toRaw,
         ({ StatePatch.empty with showIcon := some false } : StatePatch).toRaw]).isFullyDefined
        = true :=
  ⟨by decide,
   (C12_state_fully_defined_for_well_formed_patches
      [({ StatePatch.empty with badge := some ⟨"•", 2, true⟩ } : StatePatch).toRaw,
       ({ StatePatch.empty with showIcon := some false } : StatePatch).toRaw]
      (by decide)).2.1⟩

/-! ## Image registration -/

/-- None of the fourteen names of the registry is `__proto__`. -/
theorem iconImageNames_ne_proto : ∀ name ∈ iconImageNames, name ≠ "__proto__" := by
  decide

/-- C13: for a name other than `__proto__`, and so for each of the fourteen
names of the registry, `setIconImage(name, data)` makes the registry entry
`name` the image decoded from `data`, whatever the entry was, so that the last
of two writes under one name is the one read; every other entry reads as
before, no entry that held an image loses it, the state, the tray object and
the listeners are unchanged, and the call has no effect on the native tray and
emits nothing. -/
theorem C13_setIconImage_frame (t : Tray) (name dataUrl : String)
    (hname : name ≠ "__proto__") :
    imagesGet (t.setIconImage name dataUrl).1.images name
        = some (NativeImage.createFromDataURL dataUrl)
    ∧ (∀ later : String,
        imagesGet ((t.setIconImage name dataUrl).1.setIconImage name later).1.images name
          = some (NativeImage.createFromDataURL later))
    ∧ (∀ other : String, other ≠ name →
        imagesGet (t.setIconImage name dataUrl).1.images other = imagesGet t.images other)
    ∧ (∀ key : String, (imagesGet t.images key).isSome = true →
        (imagesGet (t.setIconImage name dataUrl).1.images key).isSome = true)
    ∧ (t.setIconImage name dataUrl).1.state = t.state
    ∧ (t.setIconImage name dataUrl).1.trayIcon = t.trayIcon
    ∧ (t.setIconImage name dataUrl).1.listeners = t.listeners
    ∧ (t.setIconImage name dataUrl).2 = [] := by
  have _ := hname
  refine ⟨?_, ?_, ?_, ?_, rfl, rfl, rfl, rfl⟩
  · exact imagesGet_imagesSet_self _ _ _
  · intro later
    exact imagesGet_imagesSet_self _ _ _
  · intro other hne
    exact imagesGet_imagesSet_other _ _ _ _ hne
  · intro key hkey
    by_cases hk : key = name
    · subst hk
      simp only [Tray.setIconImage]
      rw [imagesGet_imagesSet_self]
      rfl
    · simp only [Tray.setIconImage]
      rw [imagesGet_imagesSet_other _ _ _ _ hk]
      exact hkey

/-- An instance of C13: writing the entry `alert` of the sample registry leaves
the entry `dot` as it was. -/
theorem C13_setIconImage_frame_witness :
    "alert" ≠ "__proto__"
    ∧ "alert" ∈ iconImageNames
    ∧ "dot" ≠ "alert"
    ∧ imagesGet ((sampleTray ⟨"", 0, false⟩ .online).setIconImage "alert" "data:new").1.images "dot"
        = imagesGet (sampleTray ⟨"", 0, false⟩ .online).images "dot" :=
  ⟨by decide, by decide, by decide,
   (C13_setIconImage_frame (sampleTray ⟨"", 0, false⟩ .online) "alert" "data:new"
      (by decide)).2.2.1 "dot" (by decide)⟩

/-! ## Teardown -/

/-- C14: `destroy()` is idempotent. After a first call there is no tray
object; a second call right after it emits no event and returns the controller
as the first call left it; and when there was a tray object before the first
call, the two calls together emit `destroyed` once. -/
theorem C14_destroy_idempotent (t : Tray) :
    t.destroy.1.trayIcon = none
    ∧ t.destroy.1.destroy.1 = t.destroy.1
    ∧ emitted t.destroy.1.destroy.2 = []
    ∧ (t.trayIcon.isSome = true →
        emissions .destroyed (t.destroy.2 ++ t.destroy.1.destroy.2) = 1
        ∧ destructions (t.destroy.2 ++ t.destroy.1.destroy.2) = 1)
    ∧ (t.trayIcon = none → emitted (t.destroy.2 ++ t.destroy.1.destroy.2) = []) := by
  unfold Tray.destroy Tray.destroyTrayIcon emitted emissions destructions
  cases hi : t.trayIcon <;> simp [hi, List.count_cons]

/-- An instance of C14: a controller whose tray object was created by a
`setState` call is destroyed twice. -/
theorem C14_destroy_idempotent_witness :
    (Tray.new.setState linuxEnv StatePatch.empty).1.trayIcon.isSome = true
    ∧ emissions .destroyed
        ((Tray.new.setState linuxEnv StatePatch.empty).1.destroy.2
          ++ (Tray.new.setState linuxEnv StatePatch.empty).1.destroy.1.destroy.2) = 1 :=
  ⟨by decide,
   ((C14_destroy_idempotent (Tray.new.setState linuxEnv StatePatch.empty).1).2.2.2.1
      (by decide)).1⟩

/-! ## The event `update` -/

/-- An event is among the events a list of effects emits exactly when the list
holds its emission. -/
theorem mem_emitted (event : TrayEvent) (effects : List Effect) :
    event ∈ emitted effects ↔ Effect.emit event ∈ effects := by
  unfold emitted
  rw [List.mem_filterMap]
  constructor
  · rintro ⟨e, he, hev⟩
    cases e <;> simp at hev
    subst hev
    exact he
  · intro h
    exact ⟨_, h, rfl⟩

/-- The effects of `update` end with the emission of `update`, which none of
the effects before it is. -/
theorem update_effects_last (env : Env) (t : Tray) :
    (t.update env).2 = (t.update env).2.dropLast ++ [.emit .update]
    ∧ Effect.emit .update ∉ (t.update env).2.dropLast := by
  unfold Tray.update Tray.createTrayIcon Tray.destroyTrayIcon
  cases hi : t.trayIcon <;> cases hs : t.state.showIcon <;>
    by_cases hp : env.platform = "darwin" <;>
    simp [hi, hs, hp, List.dropLast]

/-- C15: the effects of a `setState` call end with the emission of `update`,
and nothing before that emission emits `update`: it is emitted once, after any
`created` or `destroyed` of the call, whether or not a tray object exists after
the call. -/
theorem C15_update_emitted_once_and_last (env : Env) (t : Tray) (patch : StatePatch) :
    ∃ before : List Effect,
      (t.setState env patch).2 = before ++ [.emit .update]
      ∧ emissions .update before = 0
      ∧ emissions .update (t.setState env patch).2 = 1
      ∧ emissions .created before = emissions .created (t.setState env patch).2
      ∧ emissions .destroyed before = emissions .destroyed (t.setState env patch).2
      ∧ emitted (t.setState env patch).2 = emitted before ++ [.update]
      ∧ .update ∉ emitted before := by
  obtain ⟨hlast, hnot⟩ := update_effects_last env { t with state := t.state.spread patch }
  refine ⟨(t.setState env patch).2.dropLast, hlast, ?_, ?_, ?_, ?_, ?_, ?_⟩
  · exact List.count_eq_zero_of_not_mem hnot
  · have h0 : emissions .update (t.setState env patch).2.dropLast = 0 :=
      List.count_eq_zero_of_not_mem hnot
    unfold emissions at h0 ⊢
    unfold Tray.setState at h0 ⊢
    rw [hlast, List.count_append, h0]
    simp
  · unfold emissions Tray.setState
    nth_rewrite 2 [hlast]
    rw [List.count_append]
    simp
  · unfold emissions Tray.setState
    nth_rewrite 2 [hlast]
    rw [List.count_append]
    simp
  · unfold Tray.setState
    nth_rewrite 1 [hlast]
    unfold emitted
    rw [List.filterMap_append]
    rfl
  · intro hmem
    exact hnot ((mem_emitted _ _).1 hmem)

/-! ## Reachable controllers -/

/-- Every call of `setIconImage` leaves the state and the tray object as they are. -/
theorem calls_setIconImage_frame (env : Env) (cs : List Call)
    (hcs : ∀ c ∈ cs, c.isSetIconImage = true) :
    ∀ t : Tray, (t.calls env cs).state = t.state ∧ (t.calls env cs).trayIcon = t.trayIcon := by
  induction cs with
  | nil => intro t; exact ⟨rfl, rfl⟩
  | cons c rest ih =>
    intro t
    have hc := hcs c (List.mem_cons_self _ _)
    have hrest := ih (fun d hd => hcs d (List.mem_cons_of_mem _ hd))
    cases c with
    | setState patch => simp [Call.isSetIconImage] at hc
    | destroy => simp [Call.isSetIconImage] at hc
    | setIconImage name dataUrl => exact hrest (t.setIconImage name dataUrl).1

/-- A counterexample to C16 as stated: the freshly constructed controller has
`showIcon` true and no tray object, and so has a controller that created its
tray object and was then destroyed. -/
theorem C16_fresh_and_destroyed_have_no_tray :
    Tray.new.state.showIcon = true
    ∧ Tray.new.trayIcon = none
    ∧ ¬ (Tray.new.trayIcon.isSome = true ↔ Tray.new.state.showIcon = true)
    ∧ (Tray.new.calls linuxEnv [.setState StatePatch.empty, .destroy]).state.showIcon = true
    ∧ (Tray.new.calls linuxEnv [.setState StatePatch.empty, .destroy]).trayIcon = none
    ∧ ¬ (∀ cs : List Call,
          ((Tray.new.calls linuxEnv cs).trayIcon.isSome = true
            ↔ (Tray.new.calls linuxEnv cs).state.showIcon = true)) := by
  refine ⟨by decide, by decide, by decide, by decide, by decide, ?_⟩
  intro h
  exact absurd ((h []).2 (by decide)) (by decide)

/-- C16, amended: in every controller state reached from construction by
calls of `setState`, `setIconImage` and `destroy`, a tray object exists only if
`state.showIcon` is true; and when the last call other than `setIconImage` was
a `setState`, a tray object exists if and only if `state.showIcon` is true. -/
theorem C16_tray_implies_showIcon_iff_after_setState (env : Env) :
    (∀ cs : List Call,
      (Tray.new.calls env cs).trayIcon.isSome = true →
        (Tray.new.calls env cs).state.showIcon = true)
    ∧ (∀ (cs : List Call) (patch : StatePatch) (registrations : List Call),
        (∀ c ∈ registrations, c.isSetIconImage = true) →
        ((Tray.new.calls env (cs ++ [.setState patch] ++ registrations)).trayIcon.isSome = true
          ↔ (Tray.new.calls env (cs ++ [.setState patch] ++ registrations)).state.showIcon
              = true)) := by
  constructor
  · intro cs
    exact calls_present_showIcon env cs Tray.new (by decide)
  · intro cs patch registrations hreg
    rw [calls_append, calls_append]
    obtain ⟨hst, hic⟩ := calls_setIconImage_frame env registrations hreg
      ((Tray.new.calls env cs).calls env [.setState patch])
    rw [hst, hic]
    have hf := update_frame env
      { Tray.new.calls env cs with state := (Tray.new.calls env cs).state.spread patch }
    show (((Tray.new.calls env cs).setState env patch).1.trayIcon.isSome = true
      ↔ ((Tray.new.calls env cs).setState env patch).1.state.showIcon = true)
    unfold Tray.setState
    rw [hf.1, hf.2.2.2]

/-- An instance of C16 as amended: after a `setState` that hides the icon, a
`destroy`, a `setState` that shows it and a `setIconImage`, the tray object
exists and `showIcon` is true. -/
theorem C16_tray_implies_showIcon_iff_after_setState_witness :
    (∀ c ∈ [Call.setIconImage "normal" "data:normal"], c.isSetIconImage = true)
    ∧ (Tray.new.calls linuxEnv
          ([.setState { StatePatch.empty with showIcon := some false }, .destroy]
            ++ [.setState { StatePatch.empty with showIcon := some true }]
            ++ [.setIconImage "normal" "data:normal"])).state.showIcon = true
    ∧ (Tray.new.calls linuxEnv
          ([.setState { StatePatch.empty with showIcon := some false }, .destroy]
            ++ [.setState { StatePatch.empty with showIcon := some true }]
            ++ [.setIconImage "normal" "data:normal"])).trayIcon.isSome = true :=
  ⟨by decide, by decide,
   ((C16_tray_implies_showIcon_iff_after_setState linuxEnv).2
      [.setState { StatePatch.empty with showIcon := some false }, .destroy]
      { StatePatch.empty with showIcon := some true }
      [.setIconImage "normal" "data:normal"] (by decide)).2 (by decide)⟩

/-- On a platform other than darwin, a tray object of a controller reached from
construction has never been given a title. -/
theorem calls_title_none (env : Env) (hp : env.platform ≠ "darwin") (cs : List Call) :
    ∀ icon : TrayIcon, (Tray.new.calls env cs).trayIcon = some icon → icon.title = none := by
  refine calls_preserve env (fun t => ∀ icon : TrayIcon, t.trayIcon = some icon → icon.title = none)
    ?_ cs Tray.new ?_
  · intro t c ht icon hicon
    cases c with
    | setState patch =>
      simp only [Tray.call, Tray.setState, Tray.update, Tray.createTrayIcon,
        Tray.destroyTrayIcon] at hicon
      cases hi : t.trayIcon with
      | none =>
        cases hs : (t.state.spread patch).showIcon <;> simp [hi, hs, hp] at hicon
        subst hicon
        rfl
      | some old =>
        cases hs : (t.state.spread patch).showIcon <;> simp [hi, hs, hp] at hicon
        subst hicon
        exact ht old hi
    | setIconImage name dataUrl => exact ht icon hicon
    | destroy =>
      simp only [Tray.call, Tray.destroy, Tray.destroyTrayIcon] at hicon
      cases hi : t.trayIcon <;> simp [hi] at hicon
  · intro icon hicon
    simp [Tray.new] at hicon

/-- The tray object of a controller reached from construction has the click
listener that `createTrayIcon` attaches. -/
theorem calls_onClick (env : Env) (cs : List Call) :
    ∀ icon : TrayIcon, (Tray.new.calls env cs).trayIcon = some icon → icon.onClick = true := by
  refine calls_preserve env (fun t => ∀ icon : TrayIcon, t.trayIcon = some icon → icon.onClick = true)
    ?_ cs Tray.new ?_
  · intro t c ht icon hicon
    cases c with
    | setState patch =>
      simp only [Tray.call, Tray.setState, Tray.update, Tray.createTrayIcon,
        Tray.destroyTrayIcon] at hicon
      cases hi : t.trayIcon with
      | none =>
        cases hs : (t.state.spread patch).showIcon <;>
          by_cases hp : env.platform = "darwin" <;> simp [hi, hs, hp] at hicon <;>
          subst hicon <;> rfl
      | some old =>
        cases hs : (t.state.spread patch).showIcon <;>
          by_cases hp : env.platform = "darwin" <;> simp [hi, hs, hp] at hicon <;>
          subst hicon <;> exact ht old hi
    | setIconImage name dataUrl => exact ht icon hicon
    | destroy =>
      simp only [Tray.call, Tray.destroy, Tray.destroyTrayIcon] at hicon
      cases hi : t.trayIcon <;> simp [hi] at hicon
  · intro icon hicon
    simp [Tray.new] at hicon

/-! ## Platforms without a title -/

/-- C17: on a platform other than darwin, a `setState` call never calls
`setTitle`, and the tray object of a controller reached from construction by
any calls has no title; when a tray object exists after the call, the call has
still given it the image, the tooltip and the context menu of the merged state. -/
theorem C17_no_title_off_darwin (env : Env) (hp : env.platform ≠ "darwin") :
    (∀ (t : Tray) (patch : StatePatch), titlesSet (t.setState env patch).2 = 0)
    ∧ (∀ (cs : List Call) (icon : TrayIcon),
        (Tray.new.calls env cs).trayIcon = some icon → icon.title = none)
    ∧ (∀ (t : Tray) (patch : StatePatch) (icon : TrayIcon),
        (t.setState env patch).1.trayIcon = some icon →
        Effect.setImage (({ t with state := t.state.spread patch } : Tray).getIconImage env)
            ∈ (t.setState env patch).2
        ∧ Effect.setToolTip (getTrayIconTooltip env (t.state.spread patch))
            ∈ (t.setState env patch).2
        ∧ Effect.setContextMenu
              (Menu.buildFromTemplate (createContextMenuTemplate env (t.state.spread patch)))
            ∈ (t.setState env patch).2) := by
  refine ⟨?_, calls_title_none env hp, ?_⟩
  · intro t patch
    unfold titlesSet Tray.setState Tray.update Tray.createTrayIcon Tray.destroyTrayIcon
    cases hi : t.trayIcon <;> cases hs : (t.state.spread patch).showIcon <;>
      simp [hi, hs, hp, List.filter]
  · intro t patch icon hicon
    have hf := update_frame env { t with state := t.state.spread patch }
    have hshow : (t.state.spread patch).showIcon = true := by
      have := hf.2.2.2
      unfold Tray.setState at hicon
      rw [hicon] at this
      exact this.symm
    unfold Tray.setState Tray.update Tray.createTrayIcon Tray.destroyTrayIcon
    cases hi : t.trayIcon <;> simp [hi, hshow, hp, Tray.getIconImage]

/-- An instance of C17: on linux the first `setState` on a fresh controller
sets no title. -/
theorem C17_no_title_off_darwin_witness :
    linuxEnv.platform ≠ "darwin"
    ∧ titlesSet (Tray.new.setState linuxEnv StatePatch.empty).2 = 0 :=
  ⟨by decide, (C17_no_title_off_darwin linuxEnv (by decide)).1 Tray.new StatePatch.empty⟩

/-! ## Names read in the registry -/

/-- C18: for every integer `badge.count`, and so for every count that is not
negative, the name under which `getIconImage` reads the registry is one of the
fourteen names `normal`, `template`, `alert`, `dot`, `9plus` and `1` to `9`; so
when the registry holds an image under each of the fourteen, `getIconImage`
returns an image. -/
theorem C18_icon_name_in_fixed_set (env : Env) (t : Tray) :
    t.getIconImageName env ∈ iconImageNames
    ∧ t.getIconImage env = imagesGet t.images (t.getIconImageName env)
    ∧ ((∀ name ∈ iconImageNames, (imagesGet t.images name).isSome = true) →
        (t.getIconImage env).isSome = true) := by
  have hmem : t.getIconImageName env ∈ iconImageNames := by
    unfold Tray.getIconImageName
    split_ifs with h1 h2 h3 h4 h5
    · decide
    · decide
    · have hlo : 1 ≤ t.state.badge.count := by omega
      have hhi : t.state.badge.count ≤ 9 := by omega
      generalize t.state.badge.count = n at hlo hhi
      interval_cases n <;> decide
    · decide
    · decide
    · decide
  refine ⟨hmem, getIconImage_eq env t, ?_⟩
  intro hall
  rw [getIconImage_eq]
  exact hall _ hmem

/-- An instance of C18: with the sample registry, count 7 reads the entry `7`,
which holds an image. -/
theorem C18_icon_name_in_fixed_set_witness :
    (∀ name ∈ iconImageNames,
        (imagesGet (sampleTray ⟨"", 7, false⟩ .online).images name).isSome = true)
    ∧ ((sampleTray ⟨"", 7, false⟩ .online).getIconImage linuxEnv).isSome = true :=
  ⟨by decide,
   (C18_icon_name_in_fixed_set linuxEnv (sampleTray ⟨"", 7, false⟩ .online)).2.2 (by decide)⟩

/-! ## Toggle entry and click -/

/-- C19: when a tray object exists after a `setState` call on a controller
reached from construction, activating the first entry of its context menu and
clicking the tray object emit the same single event:
`set-main-window-visibility` with the negation of `isMainWindowVisible` of the
merged state. -/
theorem C19_toggle_and_click_agree (env : Env) (cs : List Call) (patch : StatePatch)
    (hpresent : ((Tray.new.calls env cs).setState env patch).1.trayIcon.isSome = true) :
    ((Tray.new.calls env cs).setState env patch).1.activateToggle
        = [.emit (.setMainWindowVisibility
            (!((Tray.new.calls env cs).state.spread patch).isMainWindowVisible))]
    ∧ ((Tray.new.calls env cs).setState env patch).1.clickTrayIcon
        = [.emit (.setMainWindowVisibility
            (!((Tray.new.calls env cs).state.spread patch).isMainWindowVisible))]
    ∧ ((Tray.new.calls env cs).setState env patch).1.activateToggle
        = ((Tray.new.calls env cs).setState env patch).1.clickTrayIcon := by
  have hreach : ((Tray.new.calls env cs).setState env patch).1
      = Tray.new.calls env (cs ++ [.setState patch]) := by
    rw [calls_append]
    rfl
  obtain ⟨icon, hicon⟩ := Option.isSome_iff_exists.1 hpresent
  have hclick : icon.onClick = true := by
    rw [hreach] at hicon
    exact calls_onClick env _ icon hicon
  have hf := update_frame env
    { Tray.new.calls env cs with state := (Tray.new.calls env cs).state.spread patch }
  have ha := update_applied env
    { Tray.new.calls env cs with state := (Tray.new.calls env cs).state.spread patch } icon hicon
  have hstate : ((Tray.new.calls env cs).setState env patch).1.state
      = (Tray.new.calls env cs).state.spread patch := hf.1
  have htoggle : ((Tray.new.calls env cs).setState env patch).1.activateToggle
      = [.emit (.setMainWindowVisibility
          (!((Tray.new.calls env cs).state.spread patch).isMainWindowVisible))] := by
    unfold Tray.activateToggle
    rw [hicon]
    simp only [ha.2.2.1]
    rfl
  have hclicked : ((Tray.new.calls env cs).setState env patch).1.clickTrayIcon
      = [.emit (.setMainWindowVisibility
          (!((Tray.new.calls env cs).state.spread patch).isMainWindowVisible))] := by
    unfold Tray.clickTrayIcon
    rw [hicon]
    simp only [hclick, if_true, hstate]
  exact ⟨htoggle, hclicked, htoggle.trans hclicked.symm⟩

/-- An instance of C19: after the main window is reported hidden, both the
toggle entry and a click ask for it to be shown. -/
theorem C19_toggle_and_click_agree_witness :
    ((Tray.new.calls linuxEnv [.setState StatePatch.empty]).setState linuxEnv
        { StatePatch.empty with isMainWindowVisible := some false }).1.trayIcon.isSome = true
    ∧ ((Tray.new.calls linuxEnv [.setState StatePatch.empty]).setState linuxEnv
        { StatePatch.empty with isMainWindowVisible := some false }).1.clickTrayIcon
        = [.emit (.setMainWindowVisibility true)] :=
  ⟨by decide,
   (C19_toggle_and_click_agree linuxEnv [.setState StatePatch.empty]
      { StatePatch.empty with isMainWindowVisible := some false } (by decide)).2.1⟩

/-! ## Teardown is not final -/

/-- C20: `destroy()` changes the tray object, which is absent afterwards, and
the listeners, which are removed, and nothing else: the state, `showIcon`
included, and the registry are as before. So a later `setState` whose merged
`showIcon` is true constructs a tray object again and emits `created`. -/
theorem C20_destroy_frame_and_recreate (t : Tray) :
    t.destroy.1 = { t with trayIcon := none, listeners := [] }
    ∧ t.destroy.1.state = t.state
    ∧ t.destroy.1.images = t.images
    ∧ (∀ (env : Env) (patch : StatePatch), (t.state.spread patch).showIcon = true →
        creations (t.destroy.1.setState env patch).2 = 1
        ∧ emissions .created (t.destroy.1.setState env patch).2 = 1
        ∧ (t.destroy.1.setState env patch).1.trayIcon.isSome = true) := by
  have hd : t.destroy.1 = { t with trayIcon := none, listeners := [] } := by
    unfold Tray.destroy Tray.destroyTrayIcon
    cases hi : t.trayIcon <;> simp [hi]
  refine ⟨hd, by rw [hd], by rw [hd], ?_⟩
  intro env patch hshow
  rw [hd]
  have he := update_effects env
    { ({ t with trayIcon := none, listeners := [] } : Tray) with state := t.state.spread patch }
  have hf := update_frame env
    { ({ t with trayIcon := none, listeners := [] } : Tray) with state := t.state.spread patch }
  refine ⟨?_, ?_, ?_⟩
  · have := he.1
    simpa [hshow] using this
  · have := he.2.1
    simpa [hshow] using this
  · have := hf.2.2.2
    simpa [hshow] using this

/-- An instance of C20: a controller with a tray object is destroyed and then
given the empty patch, with `showIcon` still true. -/
theorem C20_destroy_frame_and_recreate_witness :
    ((Tray.new.setState linuxEnv StatePatch.empty).1.state.spread StatePatch.empty).showIcon = true
    ∧ creations
        ((Tray.new.setState linuxEnv StatePatch.empty).1.destroy.1.setState linuxEnv
          StatePatch.empty).2 = 1 :=
  ⟨by decide,
   ((C20_destroy_frame_and_recreate (Tray.new.setState linuxEnv StatePatch.empty).1).2.2.2
      linuxEnv StatePatch.empty (by decide)).1⟩

end TrayJs
